import Mathlib

/-!
Verification of the lightning-driver repository: a shallow embedding of the
three Lightning backend adapters (LND gRPC, LND REST, CLN) and the
session-gated API server, with theorems settling the specification claims.

JSON values are modelled by an inductive `Json` mirroring serde_json::Value;
machine integers are modelled as `Nat`/`Int` with explicit reduction modulo
2^64 where u64 wrap-around matters.
-/

/-- JSON value, mirroring serde_json::Value (numbers restricted to integers,
which is all the code under verification reads). -/
inductive Json where
  | null : Json
  | bool : Bool → Json
  | num : Int → Json
  | str : String → Json
  | arr : List Json → Json
  | obj : List (String × Json) → Json
deriving Repr

/-- Indexing a serde_json::Value with a string key: field lookup on an
object, Null otherwise (mirrors `res["key"]`). -/
def Json.getField : Json → String → Json
  | .obj fields, k =>
      match fields.find? (fun p => p.1 == k) with
      | some p => p.2
      | none => .null
  | _, _ => .null

/-- serde_json::Value::as_str: Some for a string value, None otherwise. -/
def Json.asStr : Json → Option String
  | .str s => some s
  | _ => none

/-- The u64 modulus. -/
def u64Mod : Nat := 2 ^ 64

/-- serde_json::Value::as_u64: Some for an integer in u64 range. -/
def Json.asU64 : Json → Option Nat
  | .num n => if 0 ≤ n ∧ n < (u64Mod : Int) then some n.toNat else none
  | _ => none

/-- serde_json::Value::as_bool. -/
def Json.asBool : Json → Option Bool
  | .bool b => some b
  | _ => none

/-- serde_json::Value::as_array. -/
def Json.asArray : Json → Option (List Json)
  | .arr xs => some xs
  | _ => none

/-- lightning-client/src/lib.rs: NodeInfo. -/
structure NodeInfo where
  «alias» : String
  identity_pubkey : String
deriving Repr, DecidableEq

/-- lightning-client/src/lib.rs: Balance (onchain in sat, channel in msat). -/
structure Balance where
  onchain_sat : Nat
  channel_msat : Nat
deriving Repr, DecidableEq

/-- lightning-client/src/lib.rs: Invoice. -/
structure Invoice where
  hash : String
  amount_msat : Nat
  state : String
  bolt11 : Option String
  desc : Option String
deriving Repr, DecidableEq

/-- lightning-client/src/lib.rs: DecodedInvoice. -/
structure DecodedInvoice where
  amount_msat : Option Nat
  desc : Option String
  payee : Option String
deriving Repr, DecidableEq

/-- lightning-client/src/lib.rs: PaymentResult. -/
structure PaymentResult where
  hash : String
  amount_msat : Nat
  fee_msat : Option Nat
deriving Repr, DecidableEq

/-- Errors produced by the adapters via anyhow at distinct call sites.
The constructor tags which kind of anyhow message was produced; the carried
string is the message payload. -/
inductive LnError where
  | paymentFailed : String → LnError
  | protocol : String → LnError
  | config : String → LnError
deriving Repr, DecidableEq

/-- lightning-client/src/lnd_rest.rs, LndRestClient::pay_invoice: the pure
response-to-result part, taking the decoded JSON body of the
/v1/sendpaymentsync response (transport already succeeded, any HTTP status). -/
def lndRestPayInvoice (res : Json) : Except LnError PaymentResult :=
  match (res.getField "payment_error").asStr with
  | some err => .error (.paymentFailed ("Payment failed: " ++ err))
  | none =>
      match (res.getField "payment_hash").asStr with
      | none => .error (.protocol "no payment_hash")
      | some hash =>
          match (res.getField "amount_msat").asU64 with
          | none => .error (.protocol "no amount_msat")
          | some amount_msat =>
              .ok { hash := hash
                    amount_msat := amount_msat
                    fee_msat := (res.getField "fee_msat").asU64 }

/-- lightning-client/src/cln.rs, ClnClient::pay_invoice: the pure
response-to-result part, taking the decoded JSON body of the /v1/pay
response. -/
def clnPayInvoice (res : Json) : Except LnError PaymentResult :=
  match (res.getField "error").asStr with
  | some err => .error (.paymentFailed ("Payment failed: " ++ err))
  | none =>
      match (res.getField "payment_hash").asStr with
      | none => .error (.protocol "no payment_hash")
      | some hash =>
          match (res.getField "amount_sent_msat").asU64 with
          | none => .error (.protocol "no amount_sent_msat")
          | some amount_msat =>
              .ok { hash := hash
                    amount_msat := amount_msat
                    fee_msat := (res.getField "total_fees_msats").asU64 }

/-- lightning-client/src/lnd_rest.rs, LndRestClient::decode_invoice: the pure
response-to-result part, taking the decoded JSON body of the /v1/payreq
response. Multiplication is u64 multiplication, hence the modulus. -/
def lndRestDecodeInvoice (res : Json) : DecodedInvoice :=
  let num_sat := ((res.getField "num_satoshis").asU64).getD 0
  { amount_msat := if num_sat = 0 then none else some (num_sat * 1000 % u64Mod)
    desc := (res.getField "description").asStr
    payee := (res.getField "destination").asStr }

/-- Hex digit for a value below 16 (lowercase), as in hex::encode and the
format specifier in the gRPC cert re-encoding. -/
def hexDigitChar (n : Nat) : Char :=
  if n < 10 then Char.ofNat (48 + n) else Char.ofNat (87 + n)

/-- hex::encode over a byte list: two lowercase hex digits per byte. -/
def hexEncode (bytes : List Nat) : String :=
  String.mk (bytes.foldr (fun b acc => hexDigitChar (b / 16 % 16) :: hexDigitChar (b % 16) :: acc) [])

/-- Value of one hex digit character, None when the character is not a hex
digit, as in hex::decode. -/
def hexDigitVal (c : Char) : Option Nat :=
  if 48 ≤ c.toNat ∧ c.toNat ≤ 57 then some (c.toNat - 48)
  else if 97 ≤ c.toNat ∧ c.toNat ≤ 102 then some (c.toNat - 87)
  else if 65 ≤ c.toNat ∧ c.toNat ≤ 70 then some (c.toNat - 55)
  else none

/-- hex::decode over a character list: consumes pairs of hex digits, fails on
an odd length or a non-hex character. -/
def hexDecodeList : List Char → Option (List Nat)
  | [] => some []
  | [_] => none
  | a :: b :: rest =>
      match hexDigitVal a, hexDigitVal b, hexDecodeList rest with
      | some hi, some lo, some bytes => some ((hi * 16 + lo) :: bytes)
      | _, _, _ => none

/-- hex::decode on a string. -/
def hexDecode (s : String) : Option (List Nat) :=
  hexDecodeList s.data

/-- lnd_grpc_rust Amount message: both fields are present i64 values
(proto3 scalars). -/
structure Amount where
  sat : Int
  msat : Int
deriving Repr, DecidableEq

/-- Cast of an i64 value to u64 (the Rust expression x as u64): the value
reduced modulo 2^64, as a Nat. -/
def i64ToU64 (x : Int) : Nat :=
  (x % (u64Mod : Int)).toNat

/-- lightning-client/src/lnd_grpc.rs, LndGrpcWrapper::get_balance: the pure
normalization, taking the wallet-balance confirmed_balance (i64) and the
channel-balance local_balance (optional Amount). sat * 1000 is u64
arithmetic after the i64-to-u64 cast, hence the modulus. -/
def lndGrpcGetBalance (confirmed_balance : Int) (local_balance : Option Amount) : Balance :=
  let onchain_sat := i64ToU64 confirmed_balance
  let channel_msat :=
    match local_balance with
    | some amount =>
        if amount.msat > 0 then i64ToU64 amount.msat
        else i64ToU64 amount.sat * 1000 % u64Mod
    | none => 0
  { onchain_sat := onchain_sat, channel_msat := channel_msat }

/-- lnd_grpc_rust Invoice message, with the fields the wrapper reads:
r_hash bytes, value_msat i64, state i32 enum code, payment_request, memo. -/
structure LndRpcInvoice where
  r_hash : List Nat
  value_msat : Int
  state : Int
  payment_request : String
  memo : String
deriving Repr, DecidableEq

/-- lightning-client/src/lnd_grpc.rs, LndGrpcWrapper::list_invoices: the
per-invoice normalization in the map closure. -/
def lndGrpcInvoiceMap (inv : LndRpcInvoice) : Invoice :=
  { hash := hexEncode inv.r_hash
    amount_msat := (max inv.value_msat 0).toNat
    state :=
      if inv.state = 0 then "open"
      else if inv.state = 1 then "settled"
      else if inv.state = 2 then "canceled"
      else if inv.state = 3 then "accepted"
      else "unknown: " ++ toString inv.state
    bolt11 := if inv.payment_request = "" then none else some inv.payment_request
    desc := if inv.memo = "" then none else some inv.memo }

/-- lightning-client/src/lnd_grpc.rs, LndGrpcWrapper::list_invoices: the
normalization of the whole ListInvoiceResponse invoice list. -/
def lndGrpcListInvoices (invoices : List LndRpcInvoice) : List Invoice :=
  invoices.map lndGrpcInvoiceMap

/-- lightning-client/src/cln.rs, ClnClient::get_balance: the fold over
listfunds outputs accumulating msatoshi of confirmed outputs into a u64. -/
def clnSumConfirmedMsat (outputs : List Json) : Nat :=
  outputs.foldl
    (fun acc out =>
      if (out.getField "status").asStr = some "confirmed" then
        match (out.getField "msatoshi").asU64 with
        | some msat => (acc + msat) % u64Mod
        | none => acc
      else acc)
    0

/-- lightning-client/src/cln.rs, ClnClient::get_balance: the fold over
listfunds channels accumulating our_msatoshi into a u64. -/
def clnSumChannelMsat (channels : List Json) : Nat :=
  channels.foldl
    (fun acc ch =>
      match (ch.getField "our_msatoshi").asU64 with
      | some msat => (acc + msat) % u64Mod
      | none => acc)
    0

/-- lightning-client/src/cln.rs, ClnClient::get_balance: the pure
normalization of the /v1/listfunds response body. -/
def clnGetBalance (res : Json) : Balance :=
  let onchain_msat :=
    match (res.getField "outputs").asArray with
    | some outputs => clnSumConfirmedMsat outputs
    | none => 0
  let channel_msat :=
    match (res.getField "channels").asArray with
    | some channels => clnSumChannelMsat channels
    | none => 0
  { onchain_sat := onchain_msat / 1000, channel_msat := channel_msat }

/-- Rust str::trim: strip leading and trailing whitespace. -/
def rustTrim (s : String) : String :=
  String.mk (((s.data.dropWhile Char.isWhitespace).reverse.dropWhile Char.isWhitespace).reverse)

/-- Rust str::trim_end_matches with a slash pattern: drop trailing slashes. -/
def trimEndSlashes (s : String) : String :=
  String.mk ((s.data.reverse.dropWhile (fun c => c = '/')).reverse)

/-- Cast of a u64 value to i64 (the Rust expression msat as i64). -/
def u64ToI64 (n : Nat) : Int :=
  if n < 2 ^ 63 then (n : Int) else (n : Int) - 2 ^ 64

/-- lnd_grpc_rust AddInvoice request, with the fields the wrapper sets. -/
structure LndAddInvoiceReq where
  value_msat : Int
  memo : String
deriving Repr, DecidableEq

/-- lightning-client/src/lnd_grpc.rs, LndGrpcWrapper::create_invoice: the
request built from the arguments (the label argument is bound as unused). -/
def lndGrpcCreateInvoice (msat : Nat) (_label : Option String) (desc : Option String) : LndAddInvoiceReq :=
  { value_msat := u64ToI64 msat
    memo := (desc.getD "rust") }

/-- lightning-client/src/lnd_rest.rs, LndRestClient::create_invoice: the JSON
payload posted to /v1/invoices (the label argument is bound as unused). -/
def lndRestCreateInvoicePayload (msat : Nat) (_label : Option String) (desc : Option String) : Json :=
  Json.obj [("value_msat", .num (msat : Int)), ("memo", .str (desc.getD "rust"))]

/-- lightning-client/src/cln.rs, ClnClient::create_invoice: the JSON payload
posted to /v1/invoice. The label argument is bound as unused in the source;
the label field always carries the synthesized value rust-<unix timestamp>. -/
def clnCreateInvoicePayload (msat : Nat) (_label : Option String) (desc : Option String)
    (timestamp : Int) : Json :=
  Json.obj [("msatoshi", .num (msat : Int)),
            ("label", .str ("rust-" ++ toString timestamp)),
            ("description", .str (desc.getD "rust"))]

/-- Observable side effects of LndRestClient::new, in order. -/
inductive NewEffect where
  | readCertFile : String → NewEffect
  | buildTlsClient : NewEffect
  | httpCall : NewEffect
deriving Repr, DecidableEq

/-- The constructed LndRestClient state (the TLS client itself is opaque). -/
structure LndRestClientModel where
  url : String
  macaroon : String
deriving Repr, DecidableEq

/-- lightning-client/src/lnd_rest.rs, LndRestClient::new. The filesystem,
PEM parser and TLS-client builder are oracles passed as arguments; the
returned list records the side effects performed, in order. -/
def lndRestNew (host macaroon_hex cert_path : String)
    (readFile : String → Except String String)
    (pemValid : String → Bool)
    (buildOk : Bool) :
    Except LnError LndRestClientModel × List NewEffect :=
  let cert_path := rustTrim cert_path
  if cert_path = "" then
    (.error (.config "cert_path is required"), [])
  else
    match hexDecode macaroon_hex with
    | none => (.error (.config "invalid macaroon hex"), [])
    | some mac_bytes =>
        let macaroon := hexEncode mac_bytes
        match readFile cert_path with
        | .error e =>
            (.error (.config ("Failed to read cert file " ++ cert_path ++ ": " ++ e)),
             [.readCertFile cert_path])
        | .ok cert_pem =>
            if pemValid cert_pem then
              if buildOk then
                (.ok { url := trimEndSlashes host, macaroon := macaroon },
                 [.readCertFile cert_path, .buildTlsClient])
              else
                (.error (.config "Failed to build TLS client"),
                 [.readCertFile cert_path, .buildTlsClient])
            else
              (.error (.config ("Invalid PEM certificate in " ++ cert_path)),
               [.readCertFile cert_path])

/-- A value stored in the actix session: a serialized bool, or something a
bool deserialization fails on. -/
inductive SessVal where
  | b : Bool → SessVal
  | other : SessVal
deriving Repr, DecidableEq

/-- The cookie-backed session state: stored key-value entries (first entry
for a key wins on lookup, matching insert-replaces semantics). -/
structure SessionState where
  entries : List (String × SessVal)
deriving Repr, DecidableEq

/-- Session::insert of a bool value. -/
def SessionState.insertBool (s : SessionState) (k : String) (v : Bool) : SessionState :=
  { entries := (k, .b v) :: s.entries }

/-- Session::purge: invalidates the session, dropping all entries. -/
def SessionState.purge (_s : SessionState) : SessionState :=
  { entries := [] }

/-- Session::renew: rotates the session id; stored entries are preserved. -/
def SessionState.renew (s : SessionState) : SessionState :=
  s

/-- Session::get for a bool key: Ok None when absent, Ok (Some v) for a
stored bool, Err when the stored value does not deserialize as bool. -/
def SessionState.getBool (s : SessionState) (k : String) : Except Unit (Option Bool) :=
  match s.entries.find? (fun p => p.1 == k) with
  | none => .ok none
  | some (_, .b v) => .ok (some v)
  | some (_, .other) => .error ()

/-- HTTP responses the api-server handlers produce. -/
inductive ApiResponse where
  | okInfo : NodeInfo → ApiResponse
  | okBolt11 : String → ApiResponse
  | okStatus : String → ApiResponse
  | unauthorized : String → ApiResponse
  | serverError : String → ApiResponse
deriving Repr, DecidableEq

/-- api-server/src/main.rs, require_auth: renews the session then requires a
stored logged_in == true, rejecting with 401 otherwise. -/
def require_auth (s : SessionState) : SessionState × Except ApiResponse Unit :=
  let s := s.renew
  (s, match s.getBool "logged_in" with
      | .ok (some true) => .ok ()
      | _ => .error (.unauthorized "login required"))

/-- api-server/src/main.rs, login handler: password verification (argon2) is
an oracle boolean; on success marks the session authenticated. -/
def loginHandler (s : SessionState) (password_ok : Bool) : SessionState × ApiResponse :=
  if password_ok then
    (s.insertBool "logged_in" true, .okStatus "success")
  else
    (s, .unauthorized "invalid password")

/-- api-server/src/main.rs, logout handler: purges the session. -/
def logoutHandler (s : SessionState) : SessionState × ApiResponse :=
  (s.purge, .okStatus "logged out")

/-- api-server/src/main.rs, get_info handler (GET /api/info). The backend
call result is an oracle; the returned Bool records whether the backend
adapter method was invoked. -/
def getInfoHandler (s : SessionState) (backend : Except String NodeInfo) :
    SessionState × ApiResponse × Bool :=
  match require_auth s with
  | (s, .error _) => (s, .unauthorized "login required", false)
  | (s, .ok ()) =>
      match backend with
      | .ok info => (s, .okInfo info, true)
      | .error e => (s, .serverError e, true)

/-- api-server/src/main.rs, create_invoice handler (POST /api/invoice). The
backend call result is an oracle; the returned Bool records whether the
backend adapter method was invoked. -/
def createInvoiceHandler (s : SessionState) (backend : Except String String) :
    SessionState × ApiResponse × Bool :=
  match require_auth s with
  | (s, .error _) => (s, .unauthorized "login required", false)
  | (s, .ok ()) =>
      match backend with
      | .ok bolt11 => (s, .okBolt11 bolt11, true)
      | .error e => (s, .serverError e, true)

/-- Concrete sendpaymentsync body: HTTP-level success with an empty
payment_error string alongside a payment hash and amount. -/
def payResEmptyErr : Json :=
  Json.obj [("payment_error", .str ""), ("payment_hash", .str "h"), ("amount_msat", .num 5)]

/-- Concrete sendpaymentsync body with no payment_error field. -/
def payResOk : Json :=
  Json.obj [("payment_hash", .str "h"), ("amount_msat", .num 7), ("fee_msat", .num 1)]

/-- C1 counterexample: a payload whose payment_error is present but EMPTY and
which carries payment_hash and amount_msat is still classified PaymentFailed
by LndRestClient::pay_invoice, not turned into a successful PaymentResult as
the claim requires. -/
theorem lndRestPay_emptyError_refutes :
    (payResEmptyErr.getField "payment_error").asStr = some ""
    ∧ (payResEmptyErr.getField "payment_hash").asStr = some "h"
    ∧ (payResEmptyErr.getField "amount_msat").asU64 = some 5
    ∧ lndRestPayInvoice payResEmptyErr = .error (.paymentFailed "Payment failed: ")
    ∧ ∀ r : PaymentResult, lndRestPayInvoice payResEmptyErr ≠ .ok r :=
  ⟨rfl, rfl, rfl, rfl, fun _ h => Except.noConfusion h⟩

/-- C1 (amended): LndRestClient::pay_invoice returns PaymentFailed exactly
when the payload's payment_error field is present as a string (empty or
not), regardless of HTTP transport status; when payment_error is absent or
not a string, a payload carrying payment_hash and amount_msat yields a
successful PaymentResult. -/
theorem lndRestPay_classification (res : Json) :
    ((∃ e, lndRestPayInvoice res = .error (.paymentFailed e)) ↔
      (res.getField "payment_error").asStr ≠ none)
    ∧ (∀ h a, (res.getField "payment_error").asStr = none →
        (res.getField "payment_hash").asStr = some h →
        (res.getField "amount_msat").asU64 = some a →
        lndRestPayInvoice res = .ok ⟨h, a, (res.getField "fee_msat").asU64⟩) := by
  constructor
  · cases hpe : (res.getField "payment_error").asStr with
    | some e => simp [lndRestPayInvoice, hpe]
    | none =>
        cases hph : (res.getField "payment_hash").asStr with
        | none => simp [lndRestPayInvoice, hpe, hph]
        | some hsh =>
            cases ha : (res.getField "amount_msat").asU64 with
            | none => simp [lndRestPayInvoice, hpe, hph, ha]
            | some a => simp [lndRestPayInvoice, hpe, hph, ha]
  · intro h a hpe hph ha
    simp [lndRestPayInvoice, hpe, hph, ha]

/-- C1 witness: the success branch of the amended claim at a concrete
payload. -/
theorem lndRestPay_classification_witness :
    lndRestPayInvoice payResOk = .ok ⟨"h", 7, some 1⟩ :=
  (lndRestPay_classification payResOk).2 "h" 7 rfl rfl rfl

/-- Concrete CLN /v1/pay body whose error field is non-null but not a
string. -/
def clnPayResNonNullErr : Json :=
  Json.obj [("error", .num 42), ("payment_hash", .str "h"), ("amount_sent_msat", .num 5)]

/-- Concrete CLN /v1/pay body with no error field and required fields
present. -/
def clnPayResOk : Json :=
  Json.obj [("payment_hash", .str "h"), ("amount_sent_msat", .num 9), ("total_fees_msats", .num 2)]

/-- C6 counterexample: a /v1/pay response whose error field is non-null (the
number 42) is NOT classified PaymentFailed by ClnClient::pay_invoice — with
payment_hash and amount_sent_msat present it yields a successful
PaymentResult, refuting the claim that any non-null error short-circuits to
PaymentFailed. -/
theorem clnPay_nonNullError_refutes :
    clnPayResNonNullErr.getField "error" = Json.num 42
    ∧ clnPayResNonNullErr.getField "error" ≠ Json.null
    ∧ clnPayInvoice clnPayResNonNullErr = .ok ⟨"h", 5, none⟩
    ∧ ∀ e : String, clnPayInvoice clnPayResNonNullErr ≠ .error (.paymentFailed e) :=
  ⟨rfl, fun h => Json.noConfusion h, rfl, fun _ h => Except.noConfusion h⟩

/-- C6 (amended): ClnClient::pay_invoice returns PaymentFailed exactly when
the response's error field is present as a string (a non-null error of any
other JSON type does not short-circuit); when there is no string error,
success requires both payment_hash and amount_sent_msat, and the absence of
either yields a protocol error rather than a PaymentResult. -/
theorem clnPay_classification (res : Json) :
    ((∃ e, clnPayInvoice res = .error (.paymentFailed e)) ↔
      (res.getField "error").asStr ≠ none)
    ∧ ((res.getField "error").asStr = none →
        (res.getField "payment_hash").asStr = none →
        clnPayInvoice res = .error (.protocol "no payment_hash"))
    ∧ (∀ h, (res.getField "error").asStr = none →
        (res.getField "payment_hash").asStr = some h →
        (res.getField "amount_sent_msat").asU64 = none →
        clnPayInvoice res = .error (.protocol "no amount_sent_msat"))
    ∧ (∀ h a, (res.getField "error").asStr = none →
        (res.getField "payment_hash").asStr = some h →
        (res.getField "amount_sent_msat").asU64 = some a →
        clnPayInvoice res = .ok ⟨h, a, (res.getField "total_fees_msats").asU64⟩) := by
  refine ⟨?_, ?_, ?_, ?_⟩
  · cases he : (res.getField "error").asStr with
    | some e => simp [clnPayInvoice, he]
    | none =>
        cases hph : (res.getField "payment_hash").asStr with
        | none => simp [clnPayInvoice, he, hph]
        | some hsh =>
            cases ha : (res.getField "amount_sent_msat").asU64 with
            | none => simp [clnPayInvoice, he, hph, ha]
            | some a => simp [clnPayInvoice, he, hph, ha]
  · intro he hph; simp [clnPayInvoice, he, hph]
  · intro h he hph ha; simp [clnPayInvoice, he, hph, ha]
  · intro h a he hph ha; simp [clnPayInvoice, he, hph, ha]

/-- C6 witness: the success branch and the missing-field branch of the
amended claim at concrete payloads. -/
theorem clnPay_classification_witness :
    clnPayInvoice clnPayResOk = .ok ⟨"h", 9, some 2⟩ :=
  (clnPay_classification clnPayResOk).2.2.2 "h" 9 rfl rfl rfl

/-- Concrete CLN create_invoice payload with a caller-supplied label and
timestamp 0. -/
def clnLabelPayload : Json := clnCreateInvoicePayload 5 (some "mylabel") none 0

/-- C7 counterexample: a caller-supplied label is NOT honored by
ClnClient::create_invoice — the payload's label field carries the
synthesized timestamp-derived value, not the caller's label. -/
theorem clnCreateInvoice_label_refutes :
    (clnLabelPayload.getField "label").asStr = some "rust-0"
    ∧ (clnLabelPayload.getField "label").asStr ≠ some "mylabel" := by
  constructor
  · rfl
  · decide

/-- C7 (amended): ClnClient::create_invoice ignores the caller-supplied
label entirely and always sends a synthesized timestamp-derived label
rust-<timestamp>; the other adapters also ignore the label parameter. -/
theorem createInvoice_label_ignored :
    ∀ (msat : Nat) (l1 l2 desc : Option String) (ts : Int),
      clnCreateInvoicePayload msat l1 desc ts = clnCreateInvoicePayload msat l2 desc ts
      ∧ (clnCreateInvoicePayload msat l1 desc ts).getField "label"
          = .str ("rust-" ++ toString ts)
      ∧ lndRestCreateInvoicePayload msat l1 desc = lndRestCreateInvoicePayload msat l2 desc
      ∧ lndGrpcCreateInvoice msat l1 desc = lndGrpcCreateInvoice msat l2 desc :=
  fun _ _ _ _ _ => ⟨rfl, rfl, rfl, rfl⟩

/-- Concrete payreq response with num_satoshis 21. -/
def payreqRes21 : Json := Json.obj [("num_satoshis", .num 21), ("description", .str "d")]

/-- C9: LndRestClient::decode_invoice returns amount_msat None when
num_satoshis is absent or non-numeric (as_u64 fails) or equal to 0, and
otherwise Some of the satoshi value times 1000 (u64 multiplication). -/
theorem lndRestDecode_amount_mapping (res : Json) :
    ((res.getField "num_satoshis").asU64 = none →
      (lndRestDecodeInvoice res).amount_msat = none)
    ∧ ((res.getField "num_satoshis").asU64 = some 0 →
      (lndRestDecodeInvoice res).amount_msat = none)
    ∧ (∀ n, (res.getField "num_satoshis").asU64 = some n → n ≠ 0 →
        n * 1000 < u64Mod →
        (lndRestDecodeInvoice res).amount_msat = some (n * 1000)) := by
  refine ⟨?_, ?_, ?_⟩
  · intro h; simp [lndRestDecodeInvoice, h]
  · intro h; simp [lndRestDecodeInvoice, h]
  · intro n h hn hlt
    simp [lndRestDecodeInvoice, h, hn, Nat.mod_eq_of_lt hlt]

/-- C9 witness: a 21-satoshi payreq decodes to 21000 msat. -/
theorem lndRestDecode_amount_mapping_witness :
    (lndRestDecodeInvoice payreqRes21).amount_msat = some 21000 :=
  (lndRestDecode_amount_mapping payreqRes21).2.2 21 rfl (by decide) (by decide)

/-- Concrete backend invoice with the out-of-range state code 7. -/
def lndInvState7 : LndRpcInvoice := ⟨[], 5, 7, "", ""⟩

/-- C2: for every invoice position in LndGrpcWrapper::list_invoices output,
the normalized state string is open/settled/canceled/accepted for codes
0/1/2/3 and of the form unknown: c for any other code, preserving the code
(code 7 yields the string unknown: 7). -/
theorem lndGrpc_listInvoices_state_mapping (invs : List LndRpcInvoice) (i : Nat)
    (inv : LndRpcInvoice) (h : invs[i]? = some inv) :
    ∃ out : Invoice, (lndGrpcListInvoices invs)[i]? = some out
      ∧ out.state =
          (if inv.state = 0 then "open"
           else if inv.state = 1 then "settled"
           else if inv.state = 2 then "canceled"
           else if inv.state = 3 then "accepted"
           else "unknown: " ++ toString inv.state)
      ∧ (inv.state = 7 → out.state = "unknown: 7") := by
  refine ⟨lndGrpcInvoiceMap inv, ?_, rfl, ?_⟩
  · simp [lndGrpcListInvoices, List.getElem?_map, h]
  · intro h7
    simp only [lndGrpcInvoiceMap, h7]
    decide

/-- C2 witness: a singleton list whose invoice has state code 7 is
normalized to the state string unknown: 7. -/
theorem lndGrpc_listInvoices_state_mapping_witness :
    ∃ out : Invoice, (lndGrpcListInvoices [lndInvState7])[0]? = some out
      ∧ out.state = "unknown: 7" := by
  obtain ⟨out, h1, _, h3⟩ :=
    lndGrpc_listInvoices_state_mapping [lndInvState7] 0 lndInvState7 rfl
  exact ⟨out, h1, h3 rfl⟩

/-- Concrete backend invoice with a negative value_msat. -/
def lndInvNeg : LndRpcInvoice := ⟨[], -5, 1, "", ""⟩

/-- C10: for every invoice position in LndGrpcWrapper::list_invoices output,
amount_msat is the backend's signed value_msat clamped below at 0 before the
unsigned conversion: a negative amount is reported as 0 (it never wraps to a
large unsigned value), and a nonnegative amount is reported exactly. -/
theorem lndGrpc_listInvoices_amount_clamped (invs : List LndRpcInvoice) (i : Nat)
    (inv : LndRpcInvoice) (h : invs[i]? = some inv) :
    ∃ out : Invoice, (lndGrpcListInvoices invs)[i]? = some out
      ∧ out.amount_msat = (max inv.value_msat 0).toNat
      ∧ (inv.value_msat < 0 → out.amount_msat = 0)
      ∧ (0 ≤ inv.value_msat → (out.amount_msat : Int) = inv.value_msat) := by
  refine ⟨lndGrpcInvoiceMap inv, ?_, rfl, ?_, ?_⟩
  · simp [lndGrpcListInvoices, List.getElem?_map, h]
  · intro hneg
    simp [lndGrpcInvoiceMap, max_eq_right (le_of_lt hneg)]
  · intro hpos
    simp [lndGrpcInvoiceMap, max_eq_left hpos, Int.toNat_of_nonneg hpos]

/-- C10 witness: a singleton list whose invoice has value_msat -5 is
normalized to amount_msat 0. -/
theorem lndGrpc_listInvoices_amount_clamped_witness :
    ∃ out : Invoice, (lndGrpcListInvoices [lndInvNeg])[0]? = some out
      ∧ out.amount_msat = 0 := by
  obtain ⟨out, h1, _, h3, _⟩ :=
    lndGrpc_listInvoices_amount_clamped [lndInvNeg] 0 lndInvNeg rfl
  exact ⟨out, h1, h3 (by decide)⟩

/-- The i64-to-u64 cast is value-preserving on nonnegative values inside
u64 range. -/
theorem i64ToU64_of_nonneg {x : Int} (h0 : 0 ≤ x) (hlt : x < (u64Mod : Int)) :
    (i64ToU64 x : Int) = x := by
  unfold i64ToU64
  rw [Int.emod_eq_of_lt h0 hlt, Int.toNat_of_nonneg h0]

/-- C5: LndGrpcWrapper::get_balance computes channel_msat as the local
balance's msat field when it is strictly positive, and otherwise as the
local balance's sat field times 1000; with no local balance, channel_msat
is 0. The bounds hypotheses state the inputs are in unsigned range with no
u64 overflow, as for any real i64 channel balance. -/
theorem lndGrpc_channelBalance_fallback (w : Int) (lb : Option Amount) :
    (lb = none → (lndGrpcGetBalance w lb).channel_msat = 0)
    ∧ (∀ a, lb = some a → 0 < a.msat → a.msat < (u64Mod : Int) →
        ((lndGrpcGetBalance w lb).channel_msat : Int) = a.msat)
    ∧ (∀ a, lb = some a → a.msat ≤ 0 → 0 ≤ a.sat → a.sat * 1000 < (u64Mod : Int) →
        ((lndGrpcGetBalance w lb).channel_msat : Int) = a.sat * 1000) := by
  refine ⟨?_, ?_, ?_⟩
  · intro h; subst h; rfl
  · intro a hlb hpos hlt
    subst hlb
    simp only [lndGrpcGetBalance, gt_iff_lt, if_pos hpos]
    exact i64ToU64_of_nonneg (le_of_lt hpos) hlt
  · intro a hlb hle hsat hlt
    subst hlb
    simp only [lndGrpcGetBalance, gt_iff_lt, if_neg (not_lt.mpr hle)]
    have hsatlt : a.sat < (u64Mod : Int) :=
      lt_of_le_of_lt (le_mul_of_one_le_right hsat (by norm_num)) hlt
    have h1 : (i64ToU64 a.sat : Int) = a.sat := i64ToU64_of_nonneg hsat hsatlt
    have h2 : i64ToU64 a.sat * 1000 < u64Mod := by
      have hcast : ((i64ToU64 a.sat * 1000 : Nat) : Int) < (u64Mod : Int) := by
        push_cast
        rw [h1]
        exact hlt
      exact_mod_cast hcast
    rw [Nat.mod_eq_of_lt h2]
    push_cast
    rw [h1]

/-- C5 witness: a channel amount with msat = 0 and sat = 5 yields
channel_msat = 5000. -/
theorem lndGrpc_channelBalance_fallback_witness :
    (((lndGrpcGetBalance 0 (some ⟨5, 0⟩)).channel_msat : Int)) = 5 * 1000 :=
  (lndGrpc_channelBalance_fallback 0 (some ⟨5, 0⟩)).2.2 ⟨5, 0⟩ rfl (by decide)
    (by decide) (by decide)

/-- C8: constructing LndRestClient with an empty (or whitespace-only)
cert_path fails with the configuration error before any certificate file is
read or any TLS client is built; no code path of the constructor issues a
network call; and construction succeeds only when the certificate file is
readable, parses as PEM, the TLS client builds, and the macaroon is valid
hex. -/
theorem lndRestNew_emptyCert_guard (host macaroon_hex cert_path : String)
    (readFile : String → Except String String) (pemValid : String → Bool)
    (buildOk : Bool) :
    (rustTrim cert_path = "" →
      lndRestNew host macaroon_hex cert_path readFile pemValid buildOk
        = (.error (.config "cert_path is required"), []))
    ∧ NewEffect.httpCall ∉
        (lndRestNew host macaroon_hex cert_path readFile pemValid buildOk).2
    ∧ (∀ c, (lndRestNew host macaroon_hex cert_path readFile pemValid buildOk).1 = .ok c →
        hexDecode macaroon_hex ≠ none
        ∧ (∃ pem, readFile (rustTrim cert_path) = .ok pem ∧ pemValid pem = true)
        ∧ buildOk = true) := by
  refine ⟨?_, ?_, ?_⟩
  · intro h
    simp [lndRestNew, h]
  · by_cases h : rustTrim cert_path = ""
    · simp [lndRestNew, h]
    · cases hm : hexDecode macaroon_hex with
      | none => simp [lndRestNew, h, hm]
      | some mac =>
          cases hr : readFile (rustTrim cert_path) with
          | error e => simp [lndRestNew, h, hm, hr]
          | ok pem =>
              cases hp : pemValid pem with
              | false => simp [lndRestNew, h, hm, hr, hp]
              | true =>
                  cases buildOk with
                  | false => simp [lndRestNew, h, hm, hr, hp]
                  | true => simp [lndRestNew, h, hm, hr, hp]
  · intro c hc
    by_cases h : rustTrim cert_path = ""
    · simp [lndRestNew, h] at hc
    · cases hm : hexDecode macaroon_hex with
      | none => simp [lndRestNew, h, hm] at hc
      | some mac =>
          cases hr : readFile (rustTrim cert_path) with
          | error e => simp [lndRestNew, h, hm, hr] at hc
          | ok pem =>
              cases hp : pemValid pem with
              | false => simp [lndRestNew, h, hm, hr, hp] at hc
              | true =>
                  cases buildOk with
                  | false => simp [lndRestNew, h, hm, hr, hp] at hc
                  | true =>
                      exact ⟨by simp [hm], ⟨pem, rfl, hp⟩, rfl⟩

/-- C8 witness: a whitespace-only cert_path fails construction immediately
with no side effects, whatever the filesystem contains. -/
theorem lndRestNew_emptyCert_guard_witness :
    lndRestNew "https://node" "aa" "  " (fun _ => .ok "PEM") (fun _ => true) true
      = (.error (.config "cert_path is required"), []) :=
  (lndRestNew_emptyCert_guard "https://node" "aa" "  " (fun _ => .ok "PEM")
    (fun _ => true) true).1 (by decide)

/-- Concrete authenticated session state. -/
def authedSession : SessionState := ⟨[("logged_in", .b true)]⟩

/-- C4: every protected endpoint answers 401 with no backend invocation when
the session is missing the authenticated mark; and an authenticated session
that calls /api/info, then /logout, then /api/info again gets a successful
first call, while the second /api/info call after logout answers 401 and
invokes no backend adapter method. -/
theorem apiServer_auth_gate :
    (∀ (s : SessionState) (backend : Except String NodeInfo),
        s.getBool "logged_in" ≠ .ok (some true) →
        getInfoHandler s backend = (s, .unauthorized "login required", false))
    ∧ (∀ (s : SessionState) (backend : Except String String),
        s.getBool "logged_in" ≠ .ok (some true) →
        createInvoiceHandler s backend = (s, .unauthorized "login required", false))
    ∧ (∀ (s : SessionState) (info : NodeInfo) (b2 : Except String NodeInfo),
        s.getBool "logged_in" = .ok (some true) →
        getInfoHandler s (.ok info) = (s, .okInfo info, true)
        ∧ getInfoHandler (logoutHandler s).1 b2
            = (SessionState.mk [], .unauthorized "login required", false)) := by
  refine ⟨?_, ?_, ?_⟩
  · intro s backend hno
    cases hg : s.getBool "logged_in" with
    | ok ob =>
        cases ob with
        | none => simp [getInfoHandler, require_auth, SessionState.renew, hg]
        | some bval =>
            cases bval with
            | true => exact absurd hg hno
            | false => simp [getInfoHandler, require_auth, SessionState.renew, hg]
    | error e => simp [getInfoHandler, require_auth, SessionState.renew, hg]
  · intro s backend hno
    cases hg : s.getBool "logged_in" with
    | ok ob =>
        cases ob with
        | none => simp [createInvoiceHandler, require_auth, SessionState.renew, hg]
        | some bval =>
            cases bval with
            | true => exact absurd hg hno
            | false => simp [createInvoiceHandler, require_auth, SessionState.renew, hg]
    | error e => simp [createInvoiceHandler, require_auth, SessionState.renew, hg]
  · intro s info b2 hyes
    constructor
    · simp [getInfoHandler, require_auth, SessionState.renew, hyes]
    · rfl

/-- C4 witness: the full trace on a concrete authenticated session — first
/api/info succeeds and reaches the backend, /logout purges, and the second
/api/info answers 401 without touching the backend. -/
theorem apiServer_auth_gate_witness :
    getInfoHandler authedSession (.ok ⟨"node", "pk"⟩)
      = (authedSession, .okInfo ⟨"node", "pk"⟩, true)
    ∧ getInfoHandler (logoutHandler authedSession).1 (.ok ⟨"node", "pk"⟩)
      = (SessionState.mk [], .unauthorized "login required", false) :=
  apiServer_auth_gate.2.2 authedSession ⟨"node", "pk"⟩ (.ok ⟨"node", "pk"⟩) rfl

/-- The wrapping fold over confirmed outputs agrees with the plain sum of
confirmed msatoshi values as long as that sum stays in u64 range. -/
theorem cln_confirmed_foldl (l : List Json) : ∀ acc : Nat,
    acc + (l.filterMap (fun out =>
      if (out.getField "status").asStr = some "confirmed"
      then (out.getField "msatoshi").asU64 else none)).sum < u64Mod →
    l.foldl (fun acc out =>
      if (out.getField "status").asStr = some "confirmed" then
        match (out.getField "msatoshi").asU64 with
        | some msat => (acc + msat) % u64Mod
        | none => acc
      else acc) acc
    = acc + (l.filterMap (fun out =>
      if (out.getField "status").asStr = some "confirmed"
      then (out.getField "msatoshi").asU64 else none)).sum := by
  induction l with
  | nil => intro acc _; simp
  | cons x xs ih =>
      intro acc h
      by_cases hs : (x.getField "status").asStr = some "confirmed"
      · cases hm : (x.getField "msatoshi").asU64 with
        | none =>
            simp only [List.filterMap_cons, hs, if_true, hm] at h ⊢
            simp only [List.foldl_cons, if_pos hs, hm]
            exact ih acc h
        | some v =>
            simp only [List.filterMap_cons, hs, if_true, hm, List.sum_cons] at h ⊢
            simp only [List.foldl_cons, if_pos hs, hm]
            rw [Nat.mod_eq_of_lt (by omega)]
            rw [ih (acc + v) (by omega)]
            omega
      · simp only [List.filterMap_cons, if_neg hs] at h ⊢
        simp only [List.foldl_cons, if_neg hs]
        exact ih acc h

/-- The wrapping fold over channels agrees with the plain sum of
our_msatoshi values as long as that sum stays in u64 range. -/
theorem cln_channel_foldl (l : List Json) : ∀ acc : Nat,
    acc + (l.filterMap (fun ch => (ch.getField "our_msatoshi").asU64)).sum < u64Mod →
    l.foldl (fun acc ch =>
      match (ch.getField "our_msatoshi").asU64 with
      | some msat => (acc + msat) % u64Mod
      | none => acc) acc
    = acc + (l.filterMap (fun ch => (ch.getField "our_msatoshi").asU64)).sum := by
  induction l with
  | nil => intro acc _; simp
  | cons x xs ih =>
      intro acc h
      cases hm : (x.getField "our_msatoshi").asU64 with
      | none =>
          simp only [List.filterMap_cons, hm] at h ⊢
          simp only [List.foldl_cons, hm]
          exact ih acc h
      | some v =>
          simp only [List.filterMap_cons, hm, List.sum_cons] at h ⊢
          simp only [List.foldl_cons, hm]
          rw [Nat.mod_eq_of_lt (by omega)]
          rw [ih (acc + v) (by omega)]
          omega

/-- C3: ClnClient::get_balance reports onchain_sat as the sum of the
msatoshi values of exactly the outputs whose status is confirmed, integer-
divided by 1000, and channel_msat as the sum of all channels' our_msatoshi
values (sums in u64 range). -/
theorem cln_getBalance_aggregation (res : Json) (outputs channels : List Json)
    (ho : (res.getField "outputs").asArray = some outputs)
    (hc : (res.getField "channels").asArray = some channels)
    (hso : (outputs.filterMap (fun out =>
        if (out.getField "status").asStr = some "confirmed"
        then (out.getField "msatoshi").asU64 else none)).sum < u64Mod)
    (hsc : (channels.filterMap (fun ch => (ch.getField "our_msatoshi").asU64)).sum < u64Mod) :
    (clnGetBalance res).onchain_sat
      = (outputs.filterMap (fun out =>
          if (out.getField "status").asStr = some "confirmed"
          then (out.getField "msatoshi").asU64 else none)).sum / 1000
    ∧ (clnGetBalance res).channel_msat
      = (channels.filterMap (fun ch => (ch.getField "our_msatoshi").asU64)).sum := by
  have h1 : clnSumConfirmedMsat outputs
      = (outputs.filterMap (fun out =>
          if (out.getField "status").asStr = some "confirmed"
          then (out.getField "msatoshi").asU64 else none)).sum := by
    have := cln_confirmed_foldl outputs 0 (by simpa using hso)
    simpa [clnSumConfirmedMsat] using this
  have h2 : clnSumChannelMsat channels
      = (channels.filterMap (fun ch => (ch.getField "our_msatoshi").asU64)).sum := by
    have := cln_channel_foldl channels 0 (by simpa using hsc)
    simpa [clnSumChannelMsat] using this
  constructor
  · simp [clnGetBalance, ho, h1]
  · simp [clnGetBalance, hc, h2]

/-- Concrete listfunds response: confirmed outputs of 1500 and 2500 msat, an
unconfirmed output of 999 msat, and one channel with our_msatoshi 7. -/
def clnFundsRes : Json :=
  Json.obj [("outputs", .arr
      [Json.obj [("status", .str "confirmed"), ("msatoshi", .num 1500)],
       Json.obj [("status", .str "confirmed"), ("msatoshi", .num 2500)],
       Json.obj [("status", .str "unconfirmed"), ("msatoshi", .num 999)]]),
    ("channels", .arr [Json.obj [("our_msatoshi", .num 7)]])]

/-- C3 witness: two confirmed outputs of 1500 and 2500 msat (and an excluded
unconfirmed output) yield onchain_sat = 4, and the single channel yields
channel_msat = 7. -/
theorem cln_getBalance_aggregation_witness :
    (clnGetBalance clnFundsRes).onchain_sat = 4
    ∧ (clnGetBalance clnFundsRes).channel_msat = 7 :=
  cln_getBalance_aggregation clnFundsRes
    [Json.obj [("status", .str "confirmed"), ("msatoshi", .num 1500)],
     Json.obj [("status", .str "confirmed"), ("msatoshi", .num 2500)],
     Json.obj [("status", .str "unconfirmed"), ("msatoshi", .num 999)]]
    [Json.obj [("our_msatoshi", .num 7)]]
    rfl rfl (by decide) (by decide)
